import Mathlib

/-!
Verification development for the persistence layer in `src/db/models.py`
(`aigram_sqlalchemy`).  The file shallowly embeds:

* the declarative schema layer (model classes `User`, `Category`, `Book`,
  automatic `__tablename__` generation);
* the generic persistence contract of `Base` (`save`, `update`, `delete`,
  `save_or_update`) over an explicit store/session state model;
* the `Category` → `Book` relationship with its declared
  `ON DELETE CASCADE` foreign key.

The session/transaction collaborator (SQLAlchemy `AsyncSession`) is external
to the repository; it is modelled by explicit state passing following its
documented unit-of-work semantics and the spec's interface description
(§6): `add`/`merge` stage work in the session, `commit` applies all staged
work to the store atomically or fails leaving the store untouched, and
`close` releases the session, discarding uncommitted staged work.
-/

set_option autoImplicit false

namespace AigramDB

/-! ## Schema layer

Embedding of the declarative class bodies of `models.py`. -/

/-- Column types appearing in `models.py` (`Integer`, `String(n)`,
`Boolean`, `DateTime`, `Enum`). -/
inductive ColType
  | intCol
  | strCol (maxLen : Option Nat)
  | boolCol
  | dateCol
  | enumCol (vals : List String)
deriving DecidableEq, Repr

/-- A column declaration: the options actually used in `models.py`.
No column in the source carries any CHECK constraint. -/
structure ColumnDecl where
  typ : ColType
  primaryKey : Bool := false
  unique : Bool := false
  nullable : Bool := false
  hasDefault : Bool := false
  /-- Foreign-key target with its `ondelete` cascade flag, when declared. -/
  fkTarget : Option (String × Bool) := none
deriving DecidableEq, Repr

/-- A class-body attribute of a declarative model class.  `mappedColumn`
is `x: Mapped[T] = mapped_column(...)`; `autoColumn` is a bare
`x: Mapped[T]` annotation mapped automatically; `relationshipAttr` is a
`relationship(...)`; `bareType` is a plain `TypeEngine` instance assigned
directly without `mapped_column` — such an attribute is not part of the
mapped columns. -/
inductive AttrRHS
  | mappedColumn (c : ColumnDecl)
  | autoColumn (c : ColumnDecl)
  | relationshipAttr (target : String)
  | bareType (t : ColType)
deriving DecidableEq, Repr

/-- The mapped columns contributed by a class body: `mapped_column`
assignments and bare `Mapped[...]` annotations, in declaration order. -/
def columnsOf (attrs : List (String × AttrRHS)) : List (String × ColumnDecl) :=
  attrs.filterMap fun na =>
    match na.2 with
    | AttrRHS.mappedColumn c => some (na.1, c)
    | AttrRHS.autoColumn c => some (na.1, c)
    | _ => none

/-- Python `str.lower()`: lower-case every character. -/
def lowerString (s : String) : String :=
  String.mk (s.data.map Char.toLower)

/-- `Base.__tablename__`: the class name, lower-cased, with `s` appended
(models.py lines 22-24). -/
def tablenameOf (className : String) : String :=
  lowerString className ++ "s"

/-- Class body of `User` (models.py lines 51-60). -/
def User.attrs : List (String × AttrRHS) :=
  [("id", AttrRHS.mappedColumn { typ := ColType.intCol, primaryKey := true }),
   ("chat_id", AttrRHS.mappedColumn { typ := ColType.strCol (some 30), unique := true }),
   ("fullname", AttrRHS.autoColumn { typ := ColType.strCol none, nullable := true }),
   ("lang", AttrRHS.mappedColumn { typ := ColType.strCol (some 20) }),
   ("created_at", AttrRHS.mappedColumn { typ := ColType.dateCol, hasDefault := true }),
   ("updated_at", AttrRHS.mappedColumn { typ := ColType.dateCol, hasDefault := true }),
   ("is_admin", AttrRHS.mappedColumn { typ := ColType.boolCol, hasDefault := true }),
   ("phone_number", AttrRHS.mappedColumn { typ := ColType.strCol (some 20) })]

/-- Class body of `Category` (models.py lines 63-67). -/
def Category.attrs : List (String × AttrRHS) :=
  [("id", AttrRHS.mappedColumn { typ := ColType.intCol, primaryKey := true }),
   ("name", AttrRHS.mappedColumn { typ := ColType.strCol (some 55) }),
   ("books", AttrRHS.relationshipAttr "Book")]

/-- Class body of `Book` (models.py lines 70-86).  Note line 86:
`photo: Mapped[str] = sqlalchemy.String(55)` assigns a bare `String(55)`
type instance instead of `mapped_column(sqlalchemy.String(55))`, so
`photo` is a `bareType` attribute, not a mapped column. -/
def Book.attrs : List (String × AttrRHS) :=
  [("id", AttrRHS.mappedColumn { typ := ColType.intCol, primaryKey := true }),
   ("title", AttrRHS.mappedColumn { typ := ColType.strCol (some 255) }),
   ("author", AttrRHS.mappedColumn { typ := ColType.strCol (some 255) }),
   ("vol", AttrRHS.mappedColumn { typ := ColType.enumCol ["hard", "soft"], hasDefault := true }),
   ("amount", AttrRHS.mappedColumn { typ := ColType.intCol }),
   ("category_id", AttrRHS.mappedColumn
      { typ := ColType.intCol, nullable := true, fkTarget := some ("categorys.id", true) }),
   ("category", AttrRHS.relationshipAttr "Category"),
   ("photo", AttrRHS.bareType (ColType.strCol (some 55)))]

/-- The three declarative model classes defined in `models.py`. -/
def modelClasses : List String :=
  ["User", "Category", "Book"]

/-- The physical table names generated for the model classes. -/
def tableNames : List String :=
  modelClasses.map tablenameOf

/-! ## Values and attribute lists -/

/-- A field value, as stored or assigned on an entity.  `vNone` is the
Python `None` / SQL `NULL`. -/
inductive Value
  | vInt (n : Int)
  | vStr (s : String)
  | vBool (b : Bool)
  | vNone
deriving DecidableEq, Repr

/-- First value bound to key `k` in an attribute list. -/
def getAttr (attrs : List (String × Value)) (k : String) : Option Value :=
  match attrs with
  | [] => none
  | kv :: rest => if kv.1 = k then some kv.2 else getAttr rest k

/-- Rebind key `k` to `v`: replace the existing binding in place, or
append a new one — the semantics of Python attribute assignment. -/
def setPair (attrs : List (String × Value)) (k : String) (v : Value) :
    List (String × Value) :=
  match attrs with
  | [] => [(k, v)]
  | kv :: rest => if kv.1 = k then (k, v) :: rest else kv :: setPair rest k v

/-! ## Store model (one table with its schema) -/

/-- A committed row: surrogate id plus column values. -/
structure Row where
  rid : Nat
  attrs : List (String × Value)
deriving DecidableEq, Repr

/-- The relational store for one table: its column schema, committed
rows, the next surrogate id, and whether the store is reachable. -/
structure Store where
  cols : List (String × ColumnDecl)
  rows : List Row
  nextId : Nat
  connOk : Bool := true
deriving DecidableEq, Repr

/-- Does column `n` of `b` hold a non-NULL value also present at `n`
in `a`?  Used for unique-index conflict detection. -/
def uniqueHit (a : List (String × Value)) (n : String) (b : List (String × Value)) : Bool :=
  match getAttr b n with
  | some v => !(decide (v = Value.vNone)) && decide (getAttr a n = some v)
  | none => false

/-- Do attribute lists `a` and `b` collide on some unique column? -/
def attrsConflict (cols : List (String × ColumnDecl)) (a b : List (String × Value)) : Bool :=
  cols.any fun nc => nc.2.unique && uniqueHit a nc.1 b

/-- Key `n` is absent or NULL in `attrs`. -/
def missingValue (attrs : List (String × Value)) (n : String) : Bool :=
  match getAttr attrs n with
  | some v => decide (v = Value.vNone)
  | none => true

/-- Would inserting `attrs` violate a NOT NULL constraint?  Primary keys
are store-assigned and defaulted columns are filled by the store. -/
def notNullViolation (cols : List (String × ColumnDecl)) (attrs : List (String × Value)) : Bool :=
  cols.any fun nc =>
    !nc.2.primaryKey && !nc.2.nullable && !nc.2.hasDefault && missingValue attrs nc.1

/-- Would inserting `attrs` collide with an existing row on a unique
column? -/
def insertConflict (st : Store) (attrs : List (String × Value)) : Bool :=
  st.rows.any fun r => attrsConflict st.cols r.attrs attrs

/-- Database errors surfaced to the driver.  `integrity true` is an
IntegrityError whose cause is a uniqueness violation (the case the code
tests for with `isinstance(exception.orig, UniqueViolationError)`);
`integrity false` is any other constraint failure (NOT NULL, bad foreign
key); `operational` is a transport/connection failure, which is not an
IntegrityError. -/
inductive DBError
  | integrity (uniqueViolation : Bool)
  | operational
deriving DecidableEq, Repr

/-- An entity instance: optional surrogate identity, column attribute
values, and plain (non-column) Python attributes. -/
structure Entity where
  eid : Option Nat := none
  attrs : List (String × Value) := []
  plain : List (String × Value) := []
deriving DecidableEq, Repr

/-- Flush one INSERT: constraint checks per the declared schema, then
append the row and assign the next surrogate id. -/
def Store.insert (st : Store) (e : Entity) : Except DBError (Store × Entity) :=
  if notNullViolation st.cols e.attrs then Except.error (DBError.integrity false)
  else if insertConflict st e.attrs then Except.error (DBError.integrity true)
  else Except.ok
    ({ st with rows := st.rows ++ [{ rid := st.nextId, attrs := e.attrs }],
               nextId := st.nextId + 1 },
     { e with eid := some st.nextId })

/-- Would rewriting row `i` to `attrs` collide with a different row on a
unique column? -/
def updateConflict (st : Store) (i : Nat) (attrs : List (String × Value)) : Bool :=
  st.rows.any fun r => !(decide (r.rid = i)) && attrsConflict st.cols r.attrs attrs

/-- Flush one UPDATE of a dirty entity: rewrite its row's column values.
A transient entity or one whose row is gone flushes as a no-op (the spec's
tie-break: "Update on a non-existent entity is a no-op at the application
layer but still attempts commit"). -/
def Store.applyUpdate (st : Store) (e : Entity) : Except DBError Store :=
  match e.eid with
  | none => Except.ok st
  | some i =>
    if st.rows.any fun r => decide (r.rid = i) then
      if updateConflict st i e.attrs then Except.error (DBError.integrity true)
      else Except.ok
        { st with rows := st.rows.map fun r => if r.rid = i then { r with attrs := e.attrs } else r }
    else Except.ok st

/-- Flush a list of pending INSERTs left to right; any failure aborts the
whole flush. -/
def flushInserts (st : Store) : List Entity → Except DBError (Store × List Entity)
  | [] => Except.ok (st, [])
  | e :: es =>
    match st.insert e with
    | Except.error err => Except.error err
    | Except.ok (st1, e1) =>
      match flushInserts st1 es with
      | Except.error err => Except.error err
      | Except.ok (st2, es2) => Except.ok (st2, e1 :: es2)

/-- Flush a list of dirty UPDATEs left to right; any failure aborts the
whole flush. -/
def flushUpdates (st : Store) : List Entity → Except DBError Store
  | [] => Except.ok st
  | e :: es =>
    match st.applyUpdate e with
    | Except.error err => Except.error err
    | Except.ok st1 => flushUpdates st1 es

/-! ## Session model -/

/-- Session-layer calls, recorded in order for liveness/cleanup
properties (which methods roll back, which close). -/
inductive SessOp
  | opAdd
  | opCommit
  | opRollback
  | opClose
  | opMerge
  | opDelete
deriving DecidableEq, Repr

/-- The unit-of-work session: the store it is bound to, entities staged
for INSERT (`pending`) and UPDATE (`dirty`), the call trace, and whether
the session has been closed. -/
structure Session where
  store : Store
  pending : List Entity := []
  dirty : List Entity := []
  trace : List SessOp := []
  closed : Bool := false
deriving DecidableEq, Repr

/-- `session.add(obj)`: stage an INSERT.  Pure staging — the store is
untouched until commit. -/
def Session.add (s : Session) (e : Entity) : Session :=
  { s with pending := s.pending ++ [e], trace := s.trace ++ [SessOp.opAdd] }

/-- Record the `commit()` call in the session's trace. -/
def Session.withCommitTrace (s : Session) : Session :=
  { s with trace := s.trace ++ [SessOp.opCommit] }

/-- `session.commit()`: atomically flush all staged work.  On any flush
failure the store is left exactly as it was and the error is raised; the
staged state stays associated with the failed transaction. -/
def Session.commit (s : Session) : Except (DBError × Session) (Session × List Entity) :=
  if !s.store.connOk then Except.error (DBError.operational, s.withCommitTrace)
  else
    match flushInserts s.store s.pending with
    | Except.error err => Except.error (err, s.withCommitTrace)
    | Except.ok (st1, es) =>
      match flushUpdates st1 s.dirty with
      | Except.error err => Except.error (err, s.withCommitTrace)
      | Except.ok st2 =>
        Except.ok ({ s.withCommitTrace with store := st2, pending := [], dirty := [] }, es)

/-- `session.rollback()`: discard all staged work.  Defined for the
collaborator's interface; no method in `models.py` ever calls it. -/
def Session.rollback (s : Session) : Session :=
  { s with pending := [], dirty := [], trace := s.trace ++ [SessOp.opRollback] }

/-- `session.close()`: release the session.  Uncommitted staged work is
discarded (the transaction ends without committing); the committed store
is untouched. -/
def Session.close (s : Session) : Session :=
  { s with pending := [], dirty := [], closed := true, trace := s.trace ++ [SessOp.opClose] }

/-- Merge `new` onto `old` field by field: every explicitly-set field of
`new` wins, fields only in `old` survive. -/
def mergeAttrs (old new_ : List (String × Value)) : List (String × Value) :=
  new_.foldl (fun acc kv => setPair acc kv.1 kv.2) old

/-- Modelled from the spec: the session collaborator's
`merge(entity)` "returns the entity reflecting the already-persisted row
sharing a conflicting unique key" (spec section 6), last-writer-wins on the
entity's explicitly-set fields (section 4.1).  The merged state is staged in
the session (dirty) and, like every session mutation, is not applied to
the store until a commit.  When no row conflicts, the merge stages a
plain INSERT of the entity. -/
def Session.merge (s : Session) (e : Entity) : Session × Entity :=
  let s1 := { s with trace := s.trace ++ [SessOp.opMerge] }
  match s.store.rows.find? (fun r => attrsConflict s.store.cols r.attrs e.attrs) with
  | some r =>
    let me : Entity :=
      { eid := some r.rid, attrs := mergeAttrs r.attrs e.attrs, plain := e.plain }
    ({ s1 with dirty := s1.dirty ++ [me] }, me)
  | none =>
    ({ s1 with pending := s1.pending ++ [e] }, e)

/-- A fresh session bound to a store, as handed out by the session
factory. -/
def freshSession (st : Store) : Session :=
  { store := st }

/-! ## The persistence contract of `Base` -/

/-- A Python-level return value of the contract methods: `None`, `True`,
or an entity object. -/
inductive PyValue
  | pyNone
  | pyTrue
  | pyEntity (e : Entity)
deriving DecidableEq, Repr

deriving instance DecidableEq for Except

/-- Outcome of one method call: the returned value or raised error, the
caller's entity object after the call (Python mutates it in place), and
the session afterwards. -/
structure CallResult where
  ret : Except DBError PyValue
  self : Entity
  sess : Session
deriving DecidableEq, Repr

/-- `Base.save` (models.py lines 26-28):
`db_session.add(self); return await db_session.commit()`.
The flush populates `self.id`; the method's return value is `commit()`'s
result.  No fail path rolls back or closes. -/
def save (self : Entity) (db_session : Session) : CallResult :=
  match (db_session.add self).commit with
  | Except.ok (s2, flushed) =>
    { ret := Except.ok PyValue.pyNone, self := flushed.getLast?.getD self, sess := s2 }
  | Except.error (err, s2) =>
    { ret := Except.error err, self := self, sess := s2 }

/-- Python `setattr(self, k, v)`, applied for each `kwargs` pair in
mapping order: a key naming a declared column updates that column's
value; any other key is silently set as a plain instance attribute. -/
def assignAttrs (cols : List String) (e : Entity) (kwargs : List (String × Value)) : Entity :=
  kwargs.foldl
    (fun a kv =>
      if kv.1 ∈ cols then { a with attrs := setPair a.attrs kv.1 kv.2 }
      else { a with plain := setPair a.plain kv.1 kv.2 })
    e

/-- `Base.update` (models.py lines 35-38): assign every `kwargs` pair
onto `self` with `setattr` in mapping order (the mutated entity is
staged dirty), then `return await db.commit()`.  No key validation, no
rollback. -/
def update (self : Entity) (db : Session) (kwargs : List (String × Value)) : CallResult :=
  match ({ db with dirty := db.dirty ++ [assignAttrs (db.store.cols.map Prod.fst) self kwargs] }
      : Session).commit with
  | Except.ok (s2, _) =>
    { ret := Except.ok PyValue.pyNone,
      self := assignAttrs (db.store.cols.map Prod.fst) self kwargs, sess := s2 }
  | Except.error (err, s2) =>
    { ret := Except.error err,
      self := assignAttrs (db.store.cols.map Prod.fst) self kwargs, sess := s2 }

/-- `Base.save_or_update` (models.py lines 40-48):

try: `db.add(self); return await db.commit()`
except IntegrityError: if `exception.orig` is a `UniqueViolationError`,
`return await db.merge(self)` — otherwise the except body falls through,
suppressing the exception and returning `None`.
finally: `await db.close()`.

The merge path stages the merge but never commits it; the `finally`
close then discards the staged merge.  A non-IntegrityError
(`operational`) is not caught and propagates, still closing. -/
def save_or_update (self : Entity) (db : Session) : CallResult :=
  match (db.add self).commit with
  | Except.ok (s2, flushed) =>
    { ret := Except.ok PyValue.pyNone, self := flushed.getLast?.getD self, sess := s2.close }
  | Except.error (DBError.integrity true, s2) =>
    let m := s2.merge self
    { ret := Except.ok (PyValue.pyEntity m.2), self := self, sess := m.1.close }
  | Except.error (DBError.integrity false, s2) =>
    { ret := Except.ok PyValue.pyNone, self := self, sess := s2.close }
  | Except.error (DBError.operational, s2) =>
    { ret := Except.error DBError.operational, self := self, sess := s2.close }

/-! ## The `Category` → `Book` relationship

A two-table refinement of the store for the cascade and foreign-key
claims.  Book rows mirror the mapped columns of `Book` (the unmapped
`photo` attribute has no column, see `Book.attrs`). -/

/-- A committed `categorys` row. -/
structure CatRow where
  cid : Nat
  name : String
deriving DecidableEq, Repr

/-- A committed `books` row: the mapped columns of `Book`. -/
structure BookRow where
  bid : Nat
  title : String
  author : String
  vol : String
  amount : Int
  category_id : Option Nat
deriving DecidableEq, Repr

/-- The two-table store for `categorys` and `books`. -/
structure CatBookStore where
  cats : List CatRow
  books : List BookRow
  nextId : Nat
deriving DecidableEq, Repr

/-- A transient `Book` entity: required fields as constructed by a
caller; `vol` defaults to `soft` (models.py line 81). -/
structure BookEntity where
  beid : Option Nat := none
  title : String
  author : String
  vol : String := "soft"
  amount : Int
  category_id : Option Nat := none
deriving DecidableEq, Repr

/-- Flush one `books` INSERT.  The store validates the declared foreign
key `books.category_id → categorys.id` (models.py line 83): a non-NULL
reference to a missing category is a non-uniqueness IntegrityError.  The
`amount` column is a plain `Integer` with no CHECK constraint, so any
integer, negative included, is accepted. -/
def CatBookStore.insertBook (st : CatBookStore) (b : BookEntity) :
    Except DBError CatBookStore :=
  let row : BookRow :=
    { bid := st.nextId, title := b.title, author := b.author,
      vol := b.vol, amount := b.amount, category_id := b.category_id }
  let inserted : CatBookStore :=
    { st with books := st.books ++ [row], nextId := st.nextId + 1 }
  match b.category_id with
  | some c =>
    if st.cats.any (fun k => decide (k.cid = c)) then Except.ok inserted
    else Except.error (DBError.integrity false)
  | none => Except.ok inserted

/-- Apply a committed `categorys` DELETE.  The store applies the
`ON DELETE CASCADE` rule declared on `books.category_id` (models.py line
83; the spec's section 4.2 relies on the store's native cascading foreign
key): the category row and every book row referencing it are removed in
the same transaction. -/
def CatBookStore.deleteCategory (st : CatBookStore) (c : Nat) : CatBookStore :=
  { st with cats := st.cats.filter fun k => !(decide (k.cid = c)),
            books := st.books.filter fun b => !(decide (b.category_id = some c)) }

/-- Session over the two-table store: staged book INSERTs and staged
category DELETEs, with the same atomic-commit discipline as `Session`. -/
structure CBSession where
  store : CatBookStore
  pendingBooks : List BookEntity := []
  pendingCatDeletes : List Nat := []
  trace : List SessOp := []
  closed : Bool := false
deriving DecidableEq, Repr

/-- `session.add(book)`: stage a `books` INSERT. -/
def CBSession.addBook (s : CBSession) (b : BookEntity) : CBSession :=
  { s with pendingBooks := s.pendingBooks ++ [b], trace := s.trace ++ [SessOp.opAdd] }

/-- `session.delete(category)`: stage a `categorys` DELETE.  Pure
staging — the store is untouched until commit. -/
def CBSession.stageCatDelete (s : CBSession) (c : Nat) : CBSession :=
  { s with pendingCatDeletes := s.pendingCatDeletes ++ [c],
           trace := s.trace ++ [SessOp.opDelete] }

/-- `session.rollback()` over the two-table store: discard all staged
work, leaving the committed store exactly as it was. -/
def CBSession.rollbackCB (s : CBSession) : CBSession :=
  { s with pendingBooks := [], pendingCatDeletes := [],
           trace := s.trace ++ [SessOp.opRollback] }

/-- Flush the staged `books` INSERTs left to right. -/
def flushBooks (st : CatBookStore) : List BookEntity → Except DBError CatBookStore
  | [] => Except.ok st
  | b :: bs =>
    match st.insertBook b with
    | Except.error err => Except.error err
    | Except.ok st1 => flushBooks st1 bs

/-- `session.commit()` over the two-table store: atomically flush staged
INSERTs, then staged DELETEs with their cascade; any failure leaves the
store untouched. -/
def CBSession.commitCB (s : CBSession) : Except (DBError × CBSession) CBSession :=
  let s1 := { s with trace := s.trace ++ [SessOp.opCommit] }
  match flushBooks s.store s.pendingBooks with
  | Except.error err => Except.error (err, s1)
  | Except.ok st1 =>
    Except.ok { s1 with
      store := s.pendingCatDeletes.foldl CatBookStore.deleteCategory st1,
      pendingBooks := [], pendingCatDeletes := [] }

/-- Outcome of a contract method over the two-table store. -/
structure CBResult where
  ret : Except DBError PyValue
  sess : CBSession
deriving DecidableEq, Repr

/-- A fresh session bound to a two-table store. -/
def freshCB (st : CatBookStore) : CBSession :=
  { store := st }

/-- `Base.save` instantiated at `Book` (models.py lines 26-28):
`db_session.add(self); return await db_session.commit()`. -/
def bookSave (b : BookEntity) (s : CBSession) : CBResult :=
  match (s.addBook b).commitCB with
  | Except.ok s2 => { ret := Except.ok PyValue.pyNone, sess := s2 }
  | Except.error (err, s2) => { ret := Except.error err, sess := s2 }

/-- `Base.delete` instantiated at `Category` (models.py lines 30-33):
`await db_session.delete(self); await db_session.commit(); return True`. -/
def categoryDelete (c : Nat) (s : CBSession) : CBResult :=
  match (s.stageCatDelete c).commitCB with
  | Except.ok s2 => { ret := Except.ok PyValue.pyTrue, sess := s2 }
  | Except.error (err, s2) => { ret := Except.error err, sess := s2 }

/-! ## Concrete fixtures

Instances of the spec's own example (section 8): a `users` table holding
`id=1, chat_id="123", phone_number="+1000", lang="en", fullname="old"`. -/

/-- The mapped columns of `User`, as the store's schema. -/
def userCols : List (String × ColumnDecl) :=
  columnsOf User.attrs

/-- The committed example row with `chat_id = "123"`. -/
def rowOld : Row :=
  { rid := 1,
    attrs := [("chat_id", Value.vStr "123"), ("fullname", Value.vStr "old"),
              ("lang", Value.vStr "en"), ("phone_number", Value.vStr "+1000")] }

/-- A `users` store holding only `rowOld`. -/
def storeOld : Store :=
  { cols := userCols, rows := [rowOld], nextId := 2 }

/-- An empty `users` store. -/
def storeEmpty : Store :=
  { cols := userCols, rows := [], nextId := 1 }

/-- The spec's upsert payload: same `chat_id`, new `fullname`. -/
def userJane : Entity :=
  { attrs := [("chat_id", Value.vStr "123"), ("fullname", Value.vStr "Jane"),
              ("lang", Value.vStr "en"), ("phone_number", Value.vStr "+1000")] }

/-- A fresh, fully-populated user with a new `chat_id`. -/
def userOk : Entity :=
  { attrs := [("chat_id", Value.vStr "777"), ("fullname", Value.vStr "Ann"),
              ("lang", Value.vStr "en"), ("phone_number", Value.vStr "+2000")] }

/-- A user with a fresh `chat_id` but no `lang`/`phone_number`: its
INSERT fails the NOT NULL constraints — an IntegrityError that is not a
uniqueness violation. -/
def userNoLang : Entity :=
  { attrs := [("chat_id", Value.vStr "42")] }

/-- A two-table store with one category (`id=1, name="Fiction"`). -/
def cbFiction : CatBookStore :=
  { cats := [{ cid := 1, name := "Fiction" }], books := [], nextId := 2 }

/-- A book with a negative stock amount. -/
def negBook : BookEntity :=
  { title := "X", author := "A", amount := -5, category_id := some 1 }

/-! ## Helper lemmas -/

theorem getLast_append_single {α : Type} (l : List α) (a : α) :
    (l ++ [a]).getLast? = some a := by
  rw [List.getLast?_append_cons]
  rfl

/-- The session a failed `commit()` raises with: the pre-commit session
with only the `opCommit` trace entry added — in particular the store is
untouched and nothing was rolled back or closed. -/
theorem commit_error_state (s : Session) (err : DBError) (s2 : Session)
    (h : s.commit = Except.error (err, s2)) :
    s2 = s.withCommitTrace := by
  unfold Session.commit at h
  split at h
  · simp only [Except.error.injEq, Prod.mk.injEq] at h
    exact h.2.symm
  · split at h
    · simp only [Except.error.injEq, Prod.mk.injEq] at h
      exact h.2.symm
    · split at h
      · simp only [Except.error.injEq, Prod.mk.injEq] at h
        exact h.2.symm
      · exact absurd h (by simp)

/-- The session a successful `commit()` returns: staged work cleared,
`opCommit` traced, closed-state unchanged. -/
theorem commit_ok_state (s : Session) (s2 : Session) (es : List Entity)
    (h : s.commit = Except.ok (s2, es)) :
    s2.trace = s.trace ++ [SessOp.opCommit] ∧ s2.closed = s.closed ∧
    s2.pending = [] ∧ s2.dirty = [] := by
  unfold Session.commit at h
  split at h
  · exact absurd h (by simp)
  · split at h
    · exact absurd h (by simp)
    · split at h
      · exact absurd h (by simp)
      · simp only [Except.ok.injEq, Prod.mk.injEq] at h
        rw [← h.1]
        exact ⟨rfl, rfl, rfl, rfl⟩

/-- Committing a single freshly-added entity on a fresh, reachable
session whose INSERT violates no constraint: the row is appended with
the next surrogate id and the flushed entity carries that id. -/
theorem commit_ok_of_fresh (e : Entity) (s : Session)
    (hp : s.pending = []) (hd : s.dirty = []) (hc : s.store.connOk = true)
    (hn : notNullViolation s.store.cols e.attrs = false)
    (hu : insertConflict s.store e.attrs = false) :
    (s.add e).commit = Except.ok
      ({ store := { s.store with
            rows := s.store.rows ++ [{ rid := s.store.nextId, attrs := e.attrs }],
            nextId := s.store.nextId + 1 },
         pending := [], dirty := [],
         trace := s.trace ++ [SessOp.opAdd, SessOp.opCommit],
         closed := s.closed },
       [{ e with eid := some s.store.nextId }]) := by
  unfold Session.add Session.commit Session.withCommitTrace
  simp [hp, hd, hc, flushInserts, Store.insert, hn, hu, flushUpdates]

/-- Rewriting a row to the same `eid`/`attrs` data flushes identically. -/
theorem applyUpdate_congr (st : Store) (e1 e2 : Entity)
    (hid : e1.eid = e2.eid) (ha : e1.attrs = e2.attrs) :
    st.applyUpdate e1 = st.applyUpdate e2 := by
  unfold Store.applyUpdate
  rw [hid, ha]

/-- Flushing dirty lists that differ only in the column-irrelevant parts
of their last entity produces the same outcome. -/
theorem flushUpdates_append_congr (ds : List Entity) (e1 e2 : Entity)
    (hid : e1.eid = e2.eid) (ha : e1.attrs = e2.attrs) :
    ∀ st : Store, flushUpdates st (ds ++ [e1]) = flushUpdates st (ds ++ [e2]) := by
  induction ds with
  | nil =>
    intro st
    simp only [List.nil_append]
    unfold flushUpdates
    rw [applyUpdate_congr st e1 e2 hid ha]
  | cons d ds ih =>
    intro st
    simp only [List.cons_append]
    unfold flushUpdates
    cases st.applyUpdate d with
    | error err => rfl
    | ok st1 => exact ih st1

/-- Reading back a key just set by `setPair` yields the set value. -/
theorem getAttr_setPair_self (l : List (String × Value)) (k : String) (v : Value) :
    getAttr (setPair l k v) k = some v := by
  induction l with
  | nil => simp [setPair, getAttr]
  | cons kv rest ih =>
    by_cases h : kv.1 = k
    · simp [setPair, getAttr, h]
    · simp [setPair, getAttr, h, ih]

/-- Books referencing a cascaded-away category are all gone. -/
theorem no_books_after_cascade (l : List BookRow) (c : Nat) :
    ((l.filter fun b => !(decide (b.category_id = some c))).filter
      (fun b => decide (b.category_id = some c))).length = 0 := by
  induction l with
  | nil => rfl
  | cons x xs ih => cases h : decide (x.category_id = some c) <;>
      simp_all [List.filter_cons]

/-- The deleted category itself is gone. -/
theorem no_cats_after_delete (l : List CatRow) (c : Nat) :
    ((l.filter fun k => !(decide (k.cid = c))).filter
      (fun k => decide (k.cid = c))).length = 0 := by
  induction l with
  | nil => rfl
  | cons x xs ih => cases h : decide (x.cid = c) <;>
      simp_all [List.filter_cons]

end AigramDB

open AigramDB

/-! ## Claim theorems -/

/-- C1: evaluation of the code on the spec's own example.  The claim says
`Upsert` on a uniqueness violation merges the entity's fields into the
existing row and commits that merge.  The code (`Base.save_or_update`)
merges into the session but never commits afterwards, and the
unconditional `db.close()` in the `finally` block discards the staged
merge: the call returns the merged entity, yet the store still holds the
old row unchanged (`fullname` is still `"old"`, not `"Jane"`). -/
theorem c1_merge_never_committed :
    (save_or_update userJane (freshSession storeOld)).ret =
      Except.ok (PyValue.pyEntity
        { eid := some 1,
          attrs := [("chat_id", Value.vStr "123"), ("fullname", Value.vStr "Jane"),
                    ("lang", Value.vStr "en"), ("phone_number", Value.vStr "+1000")],
          plain := [] }) ∧
    (save_or_update userJane (freshSession storeOld)).sess.store = storeOld ∧
    (save_or_update userJane (freshSession storeOld)).sess.store.rows = [rowOld] ∧
    getAttr rowOld.attrs "fullname" = some (Value.vStr "old") ∧
    (save_or_update userJane (freshSession storeOld)).sess.closed = true := by
  refine ⟨rfl, rfl, rfl, rfl, rfl⟩

/-- C2: a `Create` attempt failing a non-uniqueness constraint (here the
NOT NULL constraints on `lang`/`phone_number`) raises a non-uniqueness
IntegrityError out of `save`, but `save_or_update` on the same input
swallows it: the `except IntegrityError` block only re-acts when
`exception.orig` is a `UniqueViolationError` and otherwise falls through
without re-raising, so the call returns `None` and no error surfaces. -/
theorem c2_nonuniqueness_failure_swallowed :
    (save userNoLang (freshSession storeEmpty)).ret =
      Except.error (DBError.integrity false) ∧
    (save_or_update userNoLang (freshSession storeEmpty)).ret =
      Except.ok PyValue.pyNone ∧
    (save_or_update userNoLang (freshSession storeEmpty)).sess.store = storeEmpty := by
  refine ⟨rfl, rfl, rfl⟩

/-- C3 (counterexample): a successful `Create` does not return the
committed entity — `Base.save` returns the value of
`db_session.commit()`, which is `None`, and `None` is not the entity
object. -/
theorem c3_create_returns_none :
    (save userOk (freshSession storeEmpty)).ret = Except.ok PyValue.pyNone ∧
    (save userOk (freshSession storeEmpty)).ret ≠
      Except.ok (PyValue.pyEntity ((save userOk (freshSession storeEmpty)).self)) := by
  refine ⟨rfl, by decide⟩

/-- C3 (amended): a successful `Create` commits the entity and populates
its identity in place — the caller's entity object carries the store's
next surrogate id, its other caller-set fields are unchanged, and the
committed row holds exactly the caller-set fields — but the method's
return value is `None` (the result of `commit()`), not the entity. -/
theorem c3_create_commits_and_populates_identity (e : Entity) (s : Session)
    (hp : s.pending = []) (hd : s.dirty = []) (hc : s.store.connOk = true)
    (hn : notNullViolation s.store.cols e.attrs = false)
    (hu : insertConflict s.store e.attrs = false) :
    (save e s).ret = Except.ok PyValue.pyNone ∧
    (save e s).self.eid = some s.store.nextId ∧
    (save e s).self.attrs = e.attrs ∧
    (save e s).self.plain = e.plain ∧
    (save e s).sess.store.rows =
      s.store.rows ++ [{ rid := s.store.nextId, attrs := e.attrs }] := by
  have h := commit_ok_of_fresh e s hp hd hc hn hu
  unfold save
  rw [h]
  exact ⟨rfl, rfl, rfl, rfl, rfl⟩

/-- C3 witness: the amended theorem at the concrete fresh user. -/
theorem c3_create_commits_and_populates_identity_witness :
    (save userOk (freshSession storeEmpty)).ret = Except.ok PyValue.pyNone ∧
    (save userOk (freshSession storeEmpty)).self.eid = some 1 :=
  ⟨(c3_create_commits_and_populates_identity userOk (freshSession storeEmpty)
      rfl rfl rfl (by decide) (by decide)).1,
   (c3_create_commits_and_populates_identity userOk (freshSession storeEmpty)
      rfl rfl rfl (by decide) (by decide)).2.1⟩

/-- C4 (counterexample): a failing `Create` (duplicate `chat_id`)
surfaces its error with no rollback — the session trace after the
failure is exactly `add`, `commit`; `rollback` was never invoked. -/
theorem c4_no_rollback_on_failing_create :
    (save userJane (freshSession storeOld)).ret =
      Except.error (DBError.integrity true) ∧
    SessOp.opRollback ∉ (save userJane (freshSession storeOld)).sess.trace := by
  refine ⟨rfl, by decide⟩

/-- C4 (amended): on every fail path of `Create` and `Update` the
failure is surfaced without any rollback call — the session trace grows
only by the operations the method itself performed (`add`/`commit` for
`Create`, `commit` for `Update`), and the committed store is unchanged
because the failed flush itself is atomic, not because the code rolled
back. -/
theorem c4_failures_surface_without_rollback :
    (∀ (e : Entity) (s : Session) (err : DBError),
        (save e s).ret = Except.error err →
        (save e s).sess.store = s.store ∧
        (save e s).sess.trace = s.trace ++ [SessOp.opAdd, SessOp.opCommit]) ∧
    (∀ (e : Entity) (s : Session) (kwargs : List (String × Value)) (err : DBError),
        (update e s kwargs).ret = Except.error err →
        (update e s kwargs).sess.store = s.store ∧
        (update e s kwargs).sess.trace = s.trace ++ [SessOp.opCommit]) := by
  constructor
  · intro e s err h
    unfold save at h ⊢
    cases hc : (s.add e).commit with
    | ok p =>
      obtain ⟨s2, es⟩ := p
      rw [hc] at h
      exact absurd h (by simp)
    | error p =>
      obtain ⟨err2, s2⟩ := p
      rw [hc] at h
      have h2 := commit_error_state (s.add e) err2 s2 hc
      subst h2
      exact ⟨rfl, by simp [Session.add, Session.withCommitTrace, List.append_assoc]⟩
  · intro e s kwargs err h
    unfold update at h ⊢
    cases hc : ({ s with dirty := s.dirty ++ [assignAttrs (s.store.cols.map Prod.fst) e kwargs] }
        : Session).commit with
    | ok p =>
      obtain ⟨s2, es⟩ := p
      rw [hc] at h
      exact absurd h (by simp)
    | error p =>
      obtain ⟨err2, s2⟩ := p
      rw [hc] at h
      have h2 := commit_error_state _ err2 s2 hc
      subst h2
      exact ⟨rfl, rfl⟩

/-- C4 witness: the amended theorem applied to the concrete failing
`Create` of a duplicate `chat_id` on a fresh session. -/
theorem c4_failures_surface_without_rollback_witness :
    (save userJane (freshSession storeOld)).sess.store = storeOld ∧
    (save userJane (freshSession storeOld)).sess.trace =
      [SessOp.opAdd, SessOp.opCommit] :=
  c4_failures_surface_without_rollback.1 userJane (freshSession storeOld)
    (DBError.integrity true) (by decide)

/-- C5: on every outcome of `Upsert` — successful create, uniqueness
merge fallback, swallowed non-uniqueness IntegrityError, or propagated
non-IntegrityError — the `finally` block closes the session: the final
session is closed and the last session call is `close`. -/
theorem c5_upsert_closes_session_on_every_outcome (e : Entity) (s : Session) :
    (save_or_update e s).sess.closed = true ∧
    (save_or_update e s).sess.trace.getLast? = some SessOp.opClose := by
  unfold save_or_update
  split
  · exact ⟨rfl, getLast_append_single _ _⟩
  · exact ⟨rfl, getLast_append_single _ _⟩
  · exact ⟨rfl, getLast_append_single _ _⟩
  · exact ⟨rfl, getLast_append_single _ _⟩

/-- C6 (counterexample): an entity whose unique key is new but whose
INSERT fails another constraint (missing NOT NULL fields) makes `Upsert`
and `Create` behave differently: `Create` raises the IntegrityError
while `Upsert` swallows it and returns `None`. -/
theorem c6_fresh_key_not_identical :
    insertConflict storeEmpty userNoLang.attrs = false ∧
    (save userNoLang (freshSession storeEmpty)).ret ≠
      (save_or_update userNoLang (freshSession storeEmpty)).ret := by
  refine ⟨rfl, by decide⟩

/-- C6 (amended): for an entity whose unique key is new and whose INSERT
satisfies the remaining constraints (so the `Create` inside `Upsert`
succeeds), `Upsert` produces the same resulting store state, the same
return value, and the same flushed entity as `Create`; it differs only
in additionally closing its session.  When the fresh-key INSERT fails
another constraint, `Create` raises while `Upsert` returns `None`. -/
theorem c6_upsert_on_fresh_key_equals_create (e : Entity) (s : Session)
    (hp : s.pending = []) (hd : s.dirty = []) (hc : s.store.connOk = true)
    (hn : notNullViolation s.store.cols e.attrs = false)
    (hu : insertConflict s.store e.attrs = false) :
    (save_or_update e s).ret = (save e s).ret ∧
    (save_or_update e s).sess.store = (save e s).sess.store ∧
    (save_or_update e s).self = (save e s).self := by
  have h := commit_ok_of_fresh e s hp hd hc hn hu
  unfold save_or_update save
  rw [h]
  exact ⟨rfl, rfl, rfl⟩

/-- C6 witness: the amended theorem at the concrete fresh user on an
empty store. -/
theorem c6_upsert_on_fresh_key_equals_create_witness :
    (save_or_update userOk (freshSession storeEmpty)).ret =
      (save userOk (freshSession storeEmpty)).ret ∧
    (save_or_update userOk (freshSession storeEmpty)).sess.store =
      (save userOk (freshSession storeEmpty)).sess.store :=
  ⟨(c6_upsert_on_fresh_key_equals_create userOk (freshSession storeEmpty)
      rfl rfl rfl (by decide) (by decide)).1,
   (c6_upsert_on_fresh_key_equals_create userOk (freshSession storeEmpty)
      rfl rfl rfl (by decide) (by decide)).2.1⟩

/-- C7: deleting a Category cascades per the `ON DELETE CASCADE` rule
declared on `books.category_id` and is atomic: staging the delete (and a
rollback of the staged delete) leaves the store fully intact, and after
the single commit the category and every book referencing it are gone —
0 books reference the category, other rows survive — with `True`
returned.  The store never exposes a state with only one side removed. -/
theorem c7_category_delete_cascade_atomic (st : CatBookStore) (c : Nat) :
    ((freshCB st).stageCatDelete c).store = st ∧
    (((freshCB st).stageCatDelete c).rollbackCB).store = st ∧
    (categoryDelete c (freshCB st)).ret = Except.ok PyValue.pyTrue ∧
    ((categoryDelete c (freshCB st)).sess.store.books.filter
      (fun b => decide (b.category_id = some c))).length = 0 ∧
    ((categoryDelete c (freshCB st)).sess.store.cats.filter
      (fun k => decide (k.cid = c))).length = 0 ∧
    (categoryDelete c (freshCB st)).sess.store.books =
      st.books.filter (fun b => !(decide (b.category_id = some c))) ∧
    (categoryDelete c (freshCB st)).sess.store.cats =
      st.cats.filter (fun k => !(decide (k.cid = c))) := by
  refine ⟨rfl, rfl, rfl, ?_, ?_, rfl, rfl⟩
  · exact no_books_after_cascade st.books c
  · exact no_cats_after_delete st.cats c

/-- C8 (counterexample): a Book with `amount = -5` is accepted by
`Create` and persisted as-is — the `amount` column is a plain `Integer`
with no non-negativity constraint, so the write is not rejected and the
persisted amount is negative. -/
theorem c8_negative_amount_accepted :
    (bookSave negBook (freshCB cbFiction)).ret = Except.ok PyValue.pyNone ∧
    (bookSave negBook (freshCB cbFiction)).sess.store.books =
      [{ bid := 2, title := "X", author := "A", vol := "soft",
         amount := -5, category_id := some 1 }] ∧
    ¬ (0 ≤ (-5 : Int)) := by
  refine ⟨rfl, rfl, by decide⟩

/-- C8 (amended): the `amount` column accepts every integer: for any
`n : Int`, creating a Book with `amount = n` (and a resolving category
reference) succeeds and persists exactly `n` — no operation rejects
negative stock amounts. -/
theorem c8_amount_accepts_any_integer (n : Int) (t a : String) (c : Nat)
    (st : CatBookStore)
    (h : st.cats.any (fun k => decide (k.cid = c)) = true) :
    (bookSave { title := t, author := a, amount := n, category_id := some c }
        (freshCB st)).ret = Except.ok PyValue.pyNone ∧
    (bookSave { title := t, author := a, amount := n, category_id := some c }
        (freshCB st)).sess.store.books =
      st.books ++ [{ bid := st.nextId, title := t, author := a, vol := "soft",
                     amount := n, category_id := some c }] := by
  simp [bookSave, CBSession.addBook, CBSession.commitCB, flushBooks,
    CatBookStore.insertBook, freshCB, h]

/-- C8 witness: the amended theorem at a concrete negative amount. -/
theorem c8_amount_accepts_any_integer_witness :
    (bookSave { title := "Y", author := "B", amount := -3, category_id := some 1 }
        (freshCB cbFiction)).ret = Except.ok PyValue.pyNone :=
  (c8_amount_accepts_any_integer (-3) "Y" "B" 1 cbFiction (by decide)).1

/-- C9: the three model classes generate exactly the tables `users`,
`categorys`, `books`; but `photo` is not among the mapped columns of
`Book` — line 86 assigns the bare type `String(55)` instead of
`mapped_column(...)`, so a photo reference set before `Create` is not
persisted, contradicting the claimed read-back. -/
theorem c9_three_tables_photo_unmapped :
    tableNames = ["users", "categorys", "books"] ∧
    "photo" ∉ (columnsOf Book.attrs).map Prod.fst ∧
    ("photo", AttrRHS.bareType (ColType.strCol (some 55))) ∈ Book.attrs := by
  refine ⟨by decide, by decide, by decide⟩

/-- C10: `Update` assigns each `kwargs` pair onto the entity in mapping
order via `setattr` and then commits, with no application-level
validation of field names.  A key naming no declared column does not
make `Update` fail: the call's outcome (return value and store) is the
same as an update with that key absent, the entity's column state is
untouched, and the value is set as a plain attribute only. -/
theorem c10_update_performs_no_field_validation :
    (∀ (e : Entity) (s : Session) (kwargs : List (String × Value)),
        (update e s kwargs).self = assignAttrs (s.store.cols.map Prod.fst) e kwargs ∧
        (update e s kwargs).sess.trace = s.trace ++ [SessOp.opCommit]) ∧
    (∀ (e : Entity) (s : Session) (k : String) (v : Value),
        k ∉ s.store.cols.map Prod.fst →
        (update e s [(k, v)]).ret = (update e s []).ret ∧
        (update e s [(k, v)]).sess.store = (update e s []).sess.store ∧
        (update e s [(k, v)]).self.attrs = e.attrs ∧
        getAttr (update e s [(k, v)]).self.plain k = some v) := by
  constructor
  · intro e s kwargs
    unfold update
    cases hc : ({ s with dirty := s.dirty ++ [assignAttrs (s.store.cols.map Prod.fst) e kwargs] }
        : Session).commit with
    | ok p =>
      obtain ⟨s2, es⟩ := p
      have h2 := commit_ok_state _ s2 es hc
      exact ⟨rfl, h2.1⟩
    | error p =>
      obtain ⟨err2, s2⟩ := p
      have h2 := commit_error_state _ err2 s2 hc
      subst h2
      exact ⟨rfl, rfl⟩
  · intro e s k v hk
    have hassign : assignAttrs (s.store.cols.map Prod.fst) e [(k, v)] =
        { e with plain := setPair e.plain k v } := by
      simp [assignAttrs, hk]
    have hself : (update e s [(k, v)]).self = { e with plain := setPair e.plain k v } := by
      unfold update
      cases hc : ({ s with dirty := s.dirty ++ [assignAttrs (s.store.cols.map Prod.fst) e [(k, v)]] }
          : Session).commit with
      | ok p =>
        obtain ⟨s2, es⟩ := p
        exact hassign
      | error p =>
        obtain ⟨err2, s2⟩ := p
        exact hassign
    have hflush : ∀ st1 : Store,
        flushUpdates st1 (s.dirty ++ [assignAttrs (s.store.cols.map Prod.fst) e [(k, v)]]) =
        flushUpdates st1 (s.dirty ++ [assignAttrs (s.store.cols.map Prod.fst) e []]) := by
      intro st1
      rw [hassign]
      exact flushUpdates_append_congr s.dirty
        { e with plain := setPair e.plain k v }
        (assignAttrs (s.store.cols.map Prod.fst) e []) rfl rfl st1
    have hretstore : (update e s [(k, v)]).ret = (update e s []).ret ∧
        (update e s [(k, v)]).sess.store = (update e s []).sess.store := by
      unfold update Session.commit
      dsimp only
      cases hcn : s.store.connOk with
      | false => exact ⟨rfl, rfl⟩
      | true =>
        cases hfi : flushInserts s.store s.pending with
        | error err0 => exact ⟨rfl, rfl⟩
        | ok p =>
          obtain ⟨st1, es⟩ := p
          simp only [Bool.not_true, reduceIte, hflush]
          cases hfu : flushUpdates st1
              (s.dirty ++ [assignAttrs (s.store.cols.map Prod.fst) e []]) with
          | error err0 => exact ⟨rfl, rfl⟩
          | ok st2 => exact ⟨rfl, rfl⟩
    refine ⟨hretstore.1, hretstore.2, ?_, ?_⟩
    · rw [hself]
    · rw [hself]
      exact getAttr_setPair_self e.plain k v

/-- C10 witness: the unknown-key clause of the theorem at a concrete key
naming no declared column of `users`. -/
theorem c10_update_performs_no_field_validation_witness :
    getAttr (update userOk (freshSession storeOld)
        [("nickname", Value.vStr "Bob")]).self.plain "nickname" =
      some (Value.vStr "Bob") ∧
    (update userOk (freshSession storeOld)
        [("nickname", Value.vStr "Bob")]).self.attrs = userOk.attrs :=
  ⟨(c10_update_performs_no_field_validation.2 userOk (freshSession storeOld)
      "nickname" (Value.vStr "Bob") (by decide)).2.2.2,
   (c10_update_performs_no_field_validation.2 userOk (freshSession storeOld)
      "nickname" (Value.vStr "Bob") (by decide)).2.2.1⟩
